import Mathlib

/-!
Shallow embedding of scripts/parallel_perf_test.py, the parallel
performance-testing script comparing a REST and a gRPC backend.

Python floats are modelled as rationals, Python ints as integers or
naturals, Python dictionaries as association lists, and Python strings
as Lean strings (or lists of characters where the parsing logic is
character-by-character).  Each definition mirrors one function or code
region of the script; line references point into the Python source.
-/

namespace PerfTest

/-- Mirrors the dataclass RequestResult (lines 46-54): the result of a
single request.  payload_size is a Python int, response_time a float. -/
structure RequestResult where
  success : Bool
  response_time : ℚ
  payload_size : ℤ
  user_id : ℤ
  error_message : Option String := none
  error_type : Option String := none
deriving DecidableEq, Repr

/-- Mirrors the dataclass MetricResult (lines 57-88), the aggregated
metrics for one protocol.  The Python function statistics.stdev returns the square
root of the sample variance; since that root is irrational in general,
the field stddev_sq_response_time stores the sample variance itself,
i.e. the square of the value the script stores, which determines it
(the stddev the script stores is the nonnegative square root of this field). -/
structure MetricResult where
  protocol : String
  total_requests : ℕ
  successful_requests : ℕ
  failed_requests : ℕ
  success_rate : ℚ
  avg_response_time : ℚ
  min_response_time : ℚ
  max_response_time : ℚ
  median_response_time : ℚ
  p95_response_time : ℚ
  p99_response_time : ℚ
  stddev_sq_response_time : ℚ
  avg_payload_size : ℚ
  total_bytes_transferred : ℤ
  throughput : ℚ
  data_transfer_rate : ℚ
  network_efficiency : ℚ
  total_duration : ℚ
  errors : List (String × ℕ)
deriving DecidableEq, Repr

/-- Python sorted() on a list of numbers: sort ascending. -/
def pythonSorted (xs : List ℚ) : List ℚ :=
  xs.insertionSort (· ≤ ·)

/-- Python statistics.mean: sum divided by length. -/
def pyMean (xs : List ℚ) : ℚ :=
  xs.sum / xs.length

/-- Python min() on a nonempty list (0 is never reached: the script
only calls it on a nonempty list). -/
def pyMin (xs : List ℚ) : ℚ :=
  match xs with
  | [] => 0
  | h :: t => t.foldl min h

/-- Python max() on a nonempty list. -/
def pyMax (xs : List ℚ) : ℚ :=
  match xs with
  | [] => 0
  | h :: t => t.foldl max h

/-- Python statistics.median: sort, take the middle element for odd
length, the mean of the two middle elements for even length. -/
def pyMedian (xs : List ℚ) : ℚ :=
  let s := pythonSorted xs
  let n := s.length
  if n % 2 = 1 then s.getD (n / 2) 0
  else (s.getD (n / 2 - 1) 0 + s.getD (n / 2) 0) / 2

/-- Python statistics.stdev squared, i.e. the sample variance with the
(n-1) divisor: sum of squared deviations from the mean over n-1. -/
def pySampleVariance (xs : List ℚ) : ℚ :=
  ((xs.map (fun x => (x - pyMean xs) ^ 2)).sum) / ((xs.length : ℚ) - 1)

/-- Python dict update errors[k] = errors.get(k, 0) + 1 on an
association list (line 309). -/
def bumpError (m : List (String × ℕ)) (k : String) : List (String × ℕ) :=
  if m.any (fun p => p.1 = k) then
    m.map (fun p => if p.1 = k then (p.1, p.2 + 1) else p)
  else m ++ [(k, 1)]

/-- Python expression result.error_type or "UNKNOWN" (line 308):
None and the empty string are falsy, so both map to UNKNOWN. -/
def errorKey (r : RequestResult) : String :=
  match r.error_type with
  | none => "UNKNOWN"
  | some s => if s = "" then "UNKNOWN" else s

/-- The error-categorisation loop of calculate_metrics (lines 306-309). -/
def categorizeErrors (failed : List RequestResult) : List (String × ℕ) :=
  failed.foldl (fun m r => bumpError m (errorKey r)) []

/-- Mirrors PerformanceTester.calculate_metrics (lines 268-331): the
pure reduction from a list of RequestResults plus the measured batch
duration to a MetricResult.  The percentile index int(len(xs) * 0.95)
is the floor of the exact rational product, written with natural
division.  The stddev_sq_response_time field holds the square of the
stddev_response_time value of the script (see MetricResult). -/
def calculate_metrics (results : List RequestResult) (protocol : String)
    (duration : ℚ) : MetricResult :=
  let total_requests := results.length
  let successful_results := results.filter (fun r => r.success)
  let failed_results := results.filter (fun r => !r.success)
  let successful_count := successful_results.length
  let failed_count := failed_results.length
  let success_rate : ℚ :=
    if total_requests > 0 then
      (successful_count : ℚ) / (total_requests : ℚ) * 100
    else 0
  if successful_results ≠ [] then
    let response_times := successful_results.map (fun r => r.response_time)
    let avg_response_time := pyMean response_times
    let min_response_time := pyMin response_times
    let max_response_time := pyMax response_times
    let median_response_time := pyMedian response_times
    let sorted_times := pythonSorted response_times
    let p95_response_time := sorted_times.getD (95 * sorted_times.length / 100) 0
    let p99_response_time := sorted_times.getD (99 * sorted_times.length / 100) 0
    let stddev_sq_response_time :=
      if response_times.length > 1 then pySampleVariance response_times else 0
    let payload_sizes := successful_results.map (fun r => (r.payload_size : ℚ))
    let avg_payload_size := pyMean payload_sizes
    let total_bytes := (successful_results.map (fun r => r.payload_size)).sum
    let throughput : ℚ :=
      if duration > 0 then (successful_count : ℚ) / duration else 0
    let data_transfer_rate : ℚ :=
      if duration > 0 then (total_bytes : ℚ) / duration else 0
    let network_efficiency : ℚ :=
      if avg_response_time > 0 then avg_payload_size / avg_response_time else 0
    { protocol := protocol
      total_requests := total_requests
      successful_requests := successful_count
      failed_requests := failed_count
      success_rate := success_rate
      avg_response_time := avg_response_time
      min_response_time := min_response_time
      max_response_time := max_response_time
      median_response_time := median_response_time
      p95_response_time := p95_response_time
      p99_response_time := p99_response_time
      stddev_sq_response_time := stddev_sq_response_time
      avg_payload_size := avg_payload_size
      total_bytes_transferred := total_bytes
      throughput := throughput
      data_transfer_rate := data_transfer_rate
      network_efficiency := network_efficiency
      total_duration := duration
      errors := categorizeErrors failed_results }
  else
    { protocol := protocol
      total_requests := total_requests
      successful_requests := successful_count
      failed_requests := failed_count
      success_rate := success_rate
      avg_response_time := 0
      min_response_time := 0
      max_response_time := 0
      median_response_time := 0
      p95_response_time := 0
      p99_response_time := 0
      stddev_sq_response_time := 0
      avg_payload_size := 0
      total_bytes_transferred := 0
      throughput := 0
      data_transfer_rate := 0
      network_efficiency := 0
      total_duration := duration
      errors := categorizeErrors failed_results }

/-- One row of a pairwise comparison: the winner label and the numeric
percentage difference printed next to it. -/
structure Comparison where
  winner : String
  diff_pct : ℚ
deriving DecidableEq, Repr

/-- Mirrors the nested function compare of format_console_output
(lines 407-436): winner and percentage for one metric row of the
console COMPARISON table.  The Python guards if grpc_val / if rest_val
are truthiness tests, i.e. nonzero tests. -/
def console_compare (rest_val grpc_val : ℚ) (lower_is_better : Bool) :
    Comparison :=
  if rest_val = 0 ∧ grpc_val = 0 then ⟨"TIE", 0⟩
  else if lower_is_better then
    if rest_val < grpc_val then
      ⟨"REST", if grpc_val ≠ 0 then (grpc_val - rest_val) / grpc_val * 100 else 0⟩
    else if grpc_val < rest_val then
      ⟨"gRPC", if rest_val ≠ 0 then (rest_val - grpc_val) / rest_val * 100 else 0⟩
    else ⟨"TIE", 0⟩
  else
    if rest_val > grpc_val then
      ⟨"REST", if grpc_val ≠ 0 then (rest_val - grpc_val) / grpc_val * 100 else 0⟩
    else if grpc_val > rest_val then
      ⟨"gRPC", if rest_val ≠ 0 then (grpc_val - rest_val) / rest_val * 100 else 0⟩
    else ⟨"TIE", 0⟩

/-- Mirrors the nested function write_comparison of format_csv_output
(lines 508-527): winner and Difference_Pct for one CSV data row.
Unlike the console variant, the branch for grpc winning is a bare
else, so equal nonzero values fall into the gRPC branch. -/
def csv_write_comparison (rest_val grpc_val : ℚ) (lower_is_better : Bool) :
    Comparison :=
  if rest_val = 0 ∧ grpc_val = 0 then ⟨"TIE", 0⟩
  else if lower_is_better then
    if rest_val < grpc_val then
      ⟨"REST", if grpc_val ≠ 0 then (grpc_val - rest_val) / grpc_val * 100 else 0⟩
    else
      ⟨"gRPC", if rest_val ≠ 0 then (rest_val - grpc_val) / rest_val * 100 else 0⟩
  else
    if rest_val > grpc_val then
      ⟨"REST", if grpc_val ≠ 0 then (rest_val - grpc_val) / grpc_val * 100 else 0⟩
    else
      ⟨"gRPC", if rest_val ≠ 0 then (grpc_val - rest_val) / rest_val * 100 else 0⟩

/-- The five comparison rows emitted by format_console_output
(lines 438-442), keyed by metric name. -/
def console_comparisons (rest grpc : MetricResult) :
    List (String × Comparison) :=
  [("Avg Response Time",
    console_compare rest.avg_response_time grpc.avg_response_time true),
   ("Avg Payload Size",
    console_compare rest.avg_payload_size grpc.avg_payload_size true),
   ("Success Rate",
    console_compare rest.success_rate grpc.success_rate false),
   ("Throughput",
    console_compare rest.throughput grpc.throughput false),
   ("Network Efficiency",
    console_compare rest.network_efficiency grpc.network_efficiency false)]

/-- The comparison rows emitted by format_csv_output (lines 531-538),
keyed by metric name (the two plain count rows carry no comparison). -/
def csv_comparisons (rest grpc : MetricResult) :
    List (String × Comparison) :=
  [("Success Rate",
    csv_write_comparison rest.success_rate grpc.success_rate false),
   ("Avg Response Time",
    csv_write_comparison rest.avg_response_time grpc.avg_response_time true),
   ("Median Response Time",
    csv_write_comparison rest.median_response_time grpc.median_response_time true),
   ("P95 Response Time",
    csv_write_comparison rest.p95_response_time grpc.p95_response_time true),
   ("Avg Payload Size",
    csv_write_comparison rest.avg_payload_size grpc.avg_payload_size true),
   ("Throughput",
    csv_write_comparison rest.throughput grpc.throughput false),
   ("Network Efficiency",
    csv_write_comparison rest.network_efficiency grpc.network_efficiency false)]

/-- The comparison block of format_json_output (lines 483-494): three
signed percentage differences with fixed denominators, plus five
winner labels with per-metric tie-breaking.  The Python conditionals
if grpc_metrics.x are truthiness (nonzero) guards. -/
structure JsonComparison where
  avg_response_time_diff_pct : ℚ
  avg_payload_size_diff_pct : ℚ
  throughput_diff_pct : ℚ
  winner_avg_response_time : String
  winner_avg_payload_size : String
  winner_success_rate : String
  winner_throughput : String
  winner_network_efficiency : String
deriving DecidableEq, Repr

/-- Mirrors the comparison object built by format_json_output
(lines 483-494). -/
def format_json_comparison (rest grpc : MetricResult) : JsonComparison :=
  { avg_response_time_diff_pct :=
      if grpc.avg_response_time ≠ 0 then
        (grpc.avg_response_time - rest.avg_response_time)
          / grpc.avg_response_time * 100
      else 0
    avg_payload_size_diff_pct :=
      if grpc.avg_payload_size ≠ 0 then
        (grpc.avg_payload_size - rest.avg_payload_size)
          / grpc.avg_payload_size * 100
      else 0
    throughput_diff_pct :=
      if grpc.throughput ≠ 0 then
        (rest.throughput - grpc.throughput) / grpc.throughput * 100
      else 0
    winner_avg_response_time :=
      if rest.avg_response_time < grpc.avg_response_time then "REST" else "gRPC"
    winner_avg_payload_size :=
      if grpc.avg_payload_size < rest.avg_payload_size then "gRPC" else "REST"
    winner_success_rate :=
      if grpc.success_rate > rest.success_rate then "gRPC" else "REST"
    winner_throughput :=
      if rest.throughput > grpc.throughput then "REST" else "gRPC"
    winner_network_efficiency :=
      if rest.network_efficiency > grpc.network_efficiency then "REST" else "gRPC" }

/-- The observable behaviours of one REST call attempt, abstracting
the network: the server answers with an HTTP status and a body of some
length, the request times out, or some other exception of a named
class is raised.  A Python exception class name is a nonempty
identifier; wellFormed records that. -/
inductive RestOutcome where
  | response (status : ℕ) (contentLength : ℕ)
  | timeout
  | exn (name detail : String)
deriving DecidableEq, Repr

/-- Exception class names raised by Python are nonempty identifiers. -/
def RestOutcome.wellFormed : RestOutcome → Prop
  | .exn name _ => name ≠ ""
  | _ => True

/-- The observable behaviours of one gRPC call attempt: a decoded
response of some serialized size, an RpcError carrying a status code
name and details, or some other exception.  A call that exceeds its
30-second deadline surfaces as an RpcError whose status code name is
DEADLINE_EXCEEDED (gRPC library semantics). -/
inductive GrpcOutcome where
  | ok (byteSize : ℕ)
  | rpcError (codeName details : String)
  | exn (name detail : String)
deriving DecidableEq, Repr

/-- gRPC status code names (the .name of a StatusCode enum member) and
Python exception class names are nonempty identifiers. -/
def GrpcOutcome.wellFormed : GrpcOutcome → Prop
  | .rpcError codeName _ => codeName ≠ ""
  | .exn name _ => name ≠ ""
  | _ => True

/-- Mirrors PerformanceTester.fetch_user_rest (lines 132-179).  The
elapsed time measured by the perf_counter bracket is abstracted as the
parameter elapsed (milliseconds); the branching on the observed
outcome is the branching of the code: status 200 is a success with the body
length as payload, any other status is a failure tagged HTTP_(status),
a timeout is tagged TIMEOUT, any other exception is tagged with its
class name.  Every branch returns a record: no exception escapes. -/
def fetch_user_rest (user_id : ℤ) (elapsed : ℚ) (outcome : RestOutcome) :
    RequestResult :=
  match outcome with
  | .response status contentLength =>
      if status = 200 then
        { success := true
          response_time := elapsed
          payload_size := contentLength
          user_id := user_id }
      else
        { success := false
          response_time := elapsed
          payload_size := 0
          user_id := user_id
          error_message := some ("HTTP " ++ toString status)
          error_type := some ("HTTP_" ++ toString status) }
  | .timeout =>
      { success := false
        response_time := elapsed
        payload_size := 0
        user_id := user_id
        error_message := some "Request timeout"
        error_type := some "TIMEOUT" }
  | .exn name detail =>
      { success := false
        response_time := elapsed
        payload_size := 0
        user_id := user_id
        error_message := some detail
        error_type := some name }

/-- Mirrors PerformanceTester.fetch_user_grpc (lines 181-216).  A
successful unary call yields a success record whose payload size is
the response ByteSize; an RpcError yields a failure tagged with the
status code name e.code().name; any other exception is tagged with its
class name.  Every branch returns a record: no exception escapes. -/
def fetch_user_grpc (user_id : ℤ) (elapsed : ℚ) (outcome : GrpcOutcome) :
    RequestResult :=
  match outcome with
  | .ok byteSize =>
      { success := true
        response_time := elapsed
        payload_size := byteSize
        user_id := user_id }
  | .rpcError codeName details =>
      { success := false
        response_time := elapsed
        payload_size := 0
        user_id := user_id
        error_message := some details
        error_type := some codeName }
  | .exn name detail =>
      { success := false
        response_time := elapsed
        payload_size := 0
        user_id := user_id
        error_message := some detail
        error_type := some name }

/-- Python str.split on the single-character separator the dash, over a
list of characters: "a-b-c" becomes [a, b, c], empty pieces kept. -/
def splitDash : List Char → List (List Char)
  | [] => [[]]
  | c :: rest =>
      if c = '-' then [] :: splitDash rest
      else
        match splitDash rest with
        | [] => [[c]]
        | g :: gs => (c :: g) :: gs

/-- Whitespace stripped by the Python int constructor. -/
def isPySpace (c : Char) : Bool :=
  c = ' ' || c = '\t' || c = '\n' || c = '\r'

/-- Strip leading and trailing whitespace from a character list. -/
def stripSpaces (cs : List Char) : List Char :=
  ((cs.dropWhile isPySpace).reverse.dropWhile isPySpace).reverse

/-- Digit run acceptor of the Python int constructor: decimal digits
with single underscores allowed only between digits.  The boolean
argument records whether the previous character was a digit; the
accumulator carries the value read so far.  Returns none on an empty
or malformed run. -/
def parseDigits : List Char → ℕ → Bool → Option ℕ
  | [], acc, true => some acc
  | [], _, false => none
  | c :: rest, acc, prevDigit =>
      if c.isDigit then
        parseDigits rest (10 * acc + (c.toNat - 48)) true
      else if c = '_' then
        if prevDigit then
          match rest with
          | d :: _ => if d.isDigit then parseDigits rest acc false else none
          | [] => none
        else none
      else none

/-- Python int(s) on a string (as a character list): strip whitespace,
accept one optional sign, then a digit run; none models ValueError. -/
def pyInt (cs : List Char) : Option ℤ :=
  match stripSpaces cs with
  | '+' :: rest => (parseDigits rest 0 false).map (fun n => (n : ℤ))
  | '-' :: rest => (parseDigits rest 0 false).map (fun n => -(n : ℤ))
  | other => (parseDigits other 0 false).map (fun n => (n : ℤ))

/-- Mirrors the user-id-range validation of main (lines 594-601):
min_id, max_id = map(int, args.user_id_range.split("-")) followed by
the bounds check.  A split that does not yield exactly two pieces is
an unpacking ValueError, a piece that int() rejects is a ValueError,
and bounds with min_id < 1 or max_id < min_id raise ValueError; every
ValueError is caught and turns into sys.exit(1).  The error payload is
the process exit code. -/
def validate_user_id_range (cs : List Char) : Except ℕ (ℤ × ℤ) :=
  match splitDash cs with
  | [a, b] =>
      match pyInt a, pyInt b with
      | some min_id, some max_id =>
          if min_id < 1 ∨ max_id < min_id then .error 1
          else .ok (min_id, max_id)
      | _, _ => .error 1
  | _ => .error 1

/-- What main does up to the point load generation would start: the
range is validated first (lines 594-601); only then is connectivity
probed (lines 607-615), and only with both checks passed does the
load-generating phase run (lines 618-628). -/
inductive MainAction where
  | exitWith (code : ℕ)
  | runLoad (min_id max_id : ℤ)
deriving DecidableEq, Repr

/-- The prelude of main as a function of the range argument and of
whether both connectivity probes succeed: a validation failure exits
with code 1 before the connectivity probe and before any load. -/
def mainPrelude (cs : List Char) (connectivityOk : Bool) : MainAction :=
  match validate_user_id_range cs with
  | .error code => .exitWith code
  | .ok (min_id, max_id) =>
      if connectivityOk then .runLoad min_id max_id else .exitWith 1

/-- The successful response times of a batch: the list comprehension
at line 280 of the script. -/
def latSuccess (results : List RequestResult) : List ℚ :=
  (results.filter (fun r => r.success)).map (fun r => r.response_time)

/-- The successful payload sizes of a batch, as rationals (line 291). -/
def paySuccess (results : List RequestResult) : List ℚ :=
  (results.filter (fun r => r.success)).map (fun r => (r.payload_size : ℚ))

/-- Unfolding of calculate_metrics when at least one request succeeded:
every field in terms of the statistic helpers. -/
theorem calculate_metrics_of_ne (results : List RequestResult)
    (protocol : String) (duration : ℚ)
    (h : results.filter (fun r => r.success) ≠ []) :
    calculate_metrics results protocol duration =
      { protocol := protocol
        total_requests := results.length
        successful_requests := (results.filter (fun r => r.success)).length
        failed_requests := (results.filter (fun r => !r.success)).length
        success_rate :=
          if results.length > 0 then
            ((results.filter (fun r => r.success)).length : ℚ)
              / (results.length : ℚ) * 100
          else 0
        avg_response_time := pyMean (latSuccess results)
        min_response_time := pyMin (latSuccess results)
        max_response_time := pyMax (latSuccess results)
        median_response_time := pyMedian (latSuccess results)
        p95_response_time :=
          (pythonSorted (latSuccess results)).getD
            (95 * (pythonSorted (latSuccess results)).length / 100) 0
        p99_response_time :=
          (pythonSorted (latSuccess results)).getD
            (99 * (pythonSorted (latSuccess results)).length / 100) 0
        stddev_sq_response_time :=
          if (latSuccess results).length > 1 then
            pySampleVariance (latSuccess results)
          else 0
        avg_payload_size := pyMean (paySuccess results)
        total_bytes_transferred :=
          ((results.filter (fun r => r.success)).map
            (fun r => r.payload_size)).sum
        throughput :=
          if duration > 0 then
            ((results.filter (fun r => r.success)).length : ℚ) / duration
          else 0
        data_transfer_rate :=
          if duration > 0 then
            ((((results.filter (fun r => r.success)).map
                (fun r => r.payload_size)).sum : ℤ) : ℚ) / duration
          else 0
        network_efficiency :=
          if pyMean (latSuccess results) > 0 then
            pyMean (paySuccess results) / pyMean (latSuccess results)
          else 0
        total_duration := duration
        errors := categorizeErrors (results.filter (fun r => !r.success)) } := by
  simp only [calculate_metrics, latSuccess, paySuccess]
  rw [if_pos h]

/-- Unfolding of calculate_metrics when no request succeeded: the
latency, payload and rate fields are all zero. -/
theorem calculate_metrics_of_empty (results : List RequestResult)
    (protocol : String) (duration : ℚ)
    (h : results.filter (fun r => r.success) = []) :
    calculate_metrics results protocol duration =
      { protocol := protocol
        total_requests := results.length
        successful_requests := 0
        failed_requests := (results.filter (fun r => !r.success)).length
        success_rate :=
          if results.length > 0 then
            ((results.filter (fun r => r.success)).length : ℚ)
              / (results.length : ℚ) * 100
          else 0
        avg_response_time := 0
        min_response_time := 0
        max_response_time := 0
        median_response_time := 0
        p95_response_time := 0
        p99_response_time := 0
        stddev_sq_response_time := 0
        avg_payload_size := 0
        total_bytes_transferred := 0
        throughput := 0
        data_transfer_rate := 0
        network_efficiency := 0
        total_duration := duration
        errors := categorizeErrors (results.filter (fun r => !r.success)) } := by
  simp only [calculate_metrics]
  rw [if_neg (by simpa using h)]
  simp [h]

/-- C4: for every collection of N RequestResults of which K succeed,
calculate_metrics reports a success rate of K divided by N times 100,
and a success rate of 0 when the collection is empty. -/
theorem success_rate_ratio (results : List RequestResult)
    (protocol : String) (duration : ℚ) :
    (calculate_metrics results protocol duration).success_rate =
      if results.length = 0 then 0
      else ((results.filter (fun r => r.success)).length : ℚ)
        / (results.length : ℚ) * 100 := by
  by_cases h : results.filter (fun r => r.success) = []
  · rw [calculate_metrics_of_empty results protocol duration h]
    by_cases hn : results.length = 0 <;> simp [hn, Nat.pos_of_ne_zero]
  · rw [calculate_metrics_of_ne results protocol duration h]
    have hn : results.length ≠ 0 := by
      intro h0
      apply h
      have hres : results = [] := List.eq_nil_of_length_eq_zero h0
      simp [hres]
    simp [hn, Nat.pos_of_ne_zero]

/-- The comparison policy as the specification words it: equal values
(hence also two zeros) are a TIE with zero difference; otherwise the
protocol with the better value for the direction of the metric wins
and the difference is the absolute gap relative to the losing value,
times 100.  Division by zero denotes 0, as in the guarded source. -/
def spec_compare (rest_val grpc_val : ℚ) (lower_is_better : Bool) :
    Comparison :=
  if rest_val = grpc_val then ⟨"TIE", 0⟩
  else if (if lower_is_better then rest_val < grpc_val
           else grpc_val < rest_val) then
    ⟨"REST", |rest_val - grpc_val| / grpc_val * 100⟩
  else
    ⟨"gRPC", |rest_val - grpc_val| / rest_val * 100⟩

lemma console_compare_eq_spec (rv gv : ℚ) (dir : Bool) :
    console_compare rv gv dir = spec_compare rv gv dir := by
  unfold console_compare spec_compare
  rcases lt_trichotomy rv gv with hlt | heq | hgt
  · have hne : rv ≠ gv := ne_of_lt hlt
    have hnb : ¬(rv = 0 ∧ gv = 0) := by
      rintro ⟨h1, h2⟩
      rw [h1, h2] at hlt
      exact lt_irrefl 0 hlt
    have habs : |rv - gv| = gv - rv := by
      rw [abs_of_neg (sub_neg.mpr hlt)]
      ring
    cases dir
    · by_cases h0 : rv = 0
      · have hgpos : 0 < gv := by simpa [h0] using hlt
        simp [hnb, hne, hlt, not_lt.mpr hlt.le, habs, h0, hgpos, hgpos.ne,
          hgpos.ne', not_lt.mpr hgpos.le]
      · simp [hnb, hne, hlt, not_lt.mpr hlt.le, habs, h0]
    · by_cases h0 : gv = 0
      · have hrneg : rv < 0 := by simpa [h0] using hlt
        simp [hnb, hne, hlt, not_lt.mpr hlt.le, habs, h0, hrneg, hrneg.ne,
          not_lt.mpr hrneg.le]
      · simp [hnb, hne, hlt, not_lt.mpr hlt.le, habs, h0]
  · cases dir <;> simp [heq]
  · have hne : rv ≠ gv := (ne_of_lt hgt).symm
    have hnb : ¬(rv = 0 ∧ gv = 0) := by
      rintro ⟨h1, h2⟩
      rw [h1, h2] at hgt
      exact lt_irrefl 0 hgt
    have habs : |rv - gv| = rv - gv := by
      rw [abs_of_pos (sub_pos.mpr hgt)]
    cases dir
    · by_cases h0 : gv = 0
      · have hrpos : 0 < rv := by simpa [h0] using hgt
        simp [hnb, hne, hgt, not_lt.mpr hgt.le, habs, h0, hrpos, hrpos.ne,
          hrpos.ne', not_lt.mpr hrpos.le]
      · simp [hnb, hne, hgt, not_lt.mpr hgt.le, habs, h0]
    · by_cases h0 : rv = 0
      · have hgneg : gv < 0 := by simpa [h0] using hgt
        simp [hnb, hne, hgt, not_lt.mpr hgt.le, habs, h0, hgneg, hgneg.ne,
          hgneg.ne', not_lt.mpr hgneg.le]
      · simp [hnb, hne, hgt, not_lt.mpr hgt.le, habs, h0]

lemma csv_write_comparison_eq_spec (rv gv : ℚ) (dir : Bool) (hne : rv ≠ gv) :
    csv_write_comparison rv gv dir = spec_compare rv gv dir := by
  unfold csv_write_comparison spec_compare
  rcases hne.lt_or_lt with hlt | hgt
  · have hnb : ¬(rv = 0 ∧ gv = 0) := by
      rintro ⟨h1, h2⟩
      rw [h1, h2] at hlt
      exact lt_irrefl 0 hlt
    have habs : |rv - gv| = gv - rv := by
      rw [abs_of_neg (sub_neg.mpr hlt)]
      ring
    cases dir
    · by_cases h0 : rv = 0
      · have hgpos : 0 < gv := by simpa [h0] using hlt
        simp [hnb, hne, hlt, not_lt.mpr hlt.le, habs, h0, hgpos, hgpos.ne,
          hgpos.ne', not_lt.mpr hgpos.le]
      · simp [hnb, hne, hlt, not_lt.mpr hlt.le, habs, h0]
    · by_cases h0 : gv = 0
      · have hrneg : rv < 0 := by simpa [h0] using hlt
        simp [hnb, hne, hlt, not_lt.mpr hlt.le, habs, h0, hrneg, hrneg.ne,
          hrneg.ne', not_lt.mpr hrneg.le]
      · simp [hnb, hne, hlt, not_lt.mpr hlt.le, habs, h0]
  · have hnb : ¬(rv = 0 ∧ gv = 0) := by
      rintro ⟨h1, h2⟩
      rw [h1, h2] at hgt
      exact lt_irrefl 0 hgt
    have habs : |rv - gv| = rv - gv := by
      rw [abs_of_pos (sub_pos.mpr hgt)]
    cases dir
    · by_cases h0 : gv = 0
      · have hrpos : 0 < rv := by simpa [h0] using hgt
        simp [hnb, hne, hgt, not_lt.mpr hgt.le, habs, h0, hrpos, hrpos.ne,
          hrpos.ne', not_lt.mpr hrpos.le]
      · simp [hnb, hne, hgt, not_lt.mpr hgt.le, habs, h0]
    · by_cases h0 : rv = 0
      · have hgneg : gv < 0 := by simpa [h0] using hgt
        simp [hnb, hne, hgt, not_lt.mpr hgt.le, habs, h0, hgneg, hgneg.ne,
          hgneg.ne', not_lt.mpr hgneg.le]
      · simp [hnb, hne, hgt, not_lt.mpr hgt.le, habs, h0]

lemma csv_write_comparison_self (rv : ℚ) (dir : Bool) :
    csv_write_comparison rv rv dir =
      if rv = 0 then ⟨"TIE", 0⟩ else ⟨"gRPC", 0⟩ := by
  unfold csv_write_comparison
  by_cases h0 : rv = 0
  · simp [h0]
  · cases dir <;> simp [h0, sub_self]

/-- C2: each comparison in the console rendering follows the spec
policy: equal values (including two zeros) give TIE with a zero
difference, otherwise the protocol with the better value for the
direction of the metric wins with a difference of the absolute gap
over the losing value, times 100.  The CSV rendering follows the same
policy on distinct values, but reports equal nonzero values with
winner gRPC and a zero difference instead of TIE. -/
theorem comparison_policy (rv gv : ℚ) (dir : Bool) :
    console_compare rv gv dir = spec_compare rv gv dir ∧
    (rv ≠ gv → csv_write_comparison rv gv dir = spec_compare rv gv dir) ∧
    (rv = gv → csv_write_comparison rv gv dir =
      if rv = 0 then ⟨"TIE", 0⟩ else ⟨"gRPC", 0⟩) := by
  refine ⟨console_compare_eq_spec rv gv dir,
    fun hne => csv_write_comparison_eq_spec rv gv dir hne,
    fun heq => ?_⟩
  subst heq
  exact csv_write_comparison_self rv dir

/-- A pair of one-request batches, each fully successful, aggregated
by calculate_metrics: REST at 20 ms with 100 payload bytes and gRPC at
10 ms with 50 payload bytes, both over one second. -/
def exampleRestMetrics : MetricResult :=
  calculate_metrics
    [{ success := true, response_time := 20, payload_size := 100, user_id := 1 }]
    "REST" 1

/-- The gRPC half of the example pair. -/
def exampleGrpcMetrics : MetricResult :=
  calculate_metrics
    [{ success := true, response_time := 10, payload_size := 50, user_id := 1 }]
    "gRPC" 1

/-- Evaluation of the REST half of the example pair. -/
lemma exampleRestMetrics_eval :
    exampleRestMetrics =
      { protocol := "REST", total_requests := 1, successful_requests := 1,
        failed_requests := 0, success_rate := 100, avg_response_time := 20,
        min_response_time := 20, max_response_time := 20,
        median_response_time := 20, p95_response_time := 20,
        p99_response_time := 20, stddev_sq_response_time := 0,
        avg_payload_size := 100, total_bytes_transferred := 100,
        throughput := 1, data_transfer_rate := 100, network_efficiency := 5,
        total_duration := 1, errors := [] } := by
  rw [exampleRestMetrics, calculate_metrics_of_ne _ _ _ (by decide)]
  simp [MetricResult.mk.injEq, latSuccess, paySuccess, pyMean, pyMin, pyMax,
    pyMedian, pythonSorted, pySampleVariance, categorizeErrors,
    List.insertionSort, List.orderedInsert]
  norm_num

/-- Evaluation of the gRPC half of the example pair. -/
lemma exampleGrpcMetrics_eval :
    exampleGrpcMetrics =
      { protocol := "gRPC", total_requests := 1, successful_requests := 1,
        failed_requests := 0, success_rate := 100, avg_response_time := 10,
        min_response_time := 10, max_response_time := 10,
        median_response_time := 10, p95_response_time := 10,
        p99_response_time := 10, stddev_sq_response_time := 0,
        avg_payload_size := 50, total_bytes_transferred := 50,
        throughput := 1, data_transfer_rate := 50, network_efficiency := 5,
        total_duration := 1, errors := [] } := by
  rw [exampleGrpcMetrics, calculate_metrics_of_ne _ _ _ (by decide)]
  simp [MetricResult.mk.injEq, latSuccess, paySuccess, pyMean, pyMin, pyMax,
    pyMedian, pythonSorted, pySampleVariance, categorizeErrors,
    List.insertionSort, List.orderedInsert]
  norm_num

/-- C2 counterexample: the success rates of the example pair are both
100, yet the CSV rendering reports winner gRPC, not TIE, for that row. -/
theorem comparison_policy_csv_tie_counterexample :
    exampleRestMetrics.success_rate = exampleGrpcMetrics.success_rate ∧
    csv_write_comparison exampleRestMetrics.success_rate
      exampleGrpcMetrics.success_rate false ≠ ⟨"TIE", 0⟩ := by
  rw [exampleRestMetrics_eval, exampleGrpcMetrics_eval]
  constructor
  · norm_num
  · norm_num [csv_write_comparison, Comparison.mk.injEq]
    decide

/-- C2 witness: the policy evaluated at 3 versus 5 on a metric where
lower is better gives REST the win with a 40 percent difference. -/
theorem comparison_policy_witness :
    csv_write_comparison 3 5 true = spec_compare 3 5 true ∧
    console_compare 3 5 true = spec_compare 3 5 true := by
  exact ⟨(comparison_policy 3 5 true).2.1 (by decide),
    (comparison_policy 3 5 true).1⟩

lemma console_eq_csv_of_ne (rv gv : ℚ) (dir : Bool) (h : rv ≠ gv) :
    console_compare rv gv dir = csv_write_comparison rv gv dir := by
  rw [console_compare_eq_spec, csv_write_comparison_eq_spec rv gv dir h]

lemma winner_style_lower_rest (rv gv : ℚ) (h : rv ≠ gv) :
    (if rv < gv then "REST" else "gRPC") = (console_compare rv gv true).winner := by
  rw [console_compare_eq_spec]
  unfold spec_compare
  rcases h.lt_or_lt with hlt | hgt
  · simp [h, hlt]
  · simp [h, not_lt.mpr hgt.le]

lemma winner_style_lower_grpc (rv gv : ℚ) (h : rv ≠ gv) :
    (if gv < rv then "gRPC" else "REST") = (console_compare rv gv true).winner := by
  rw [console_compare_eq_spec]
  unfold spec_compare
  rcases h.lt_or_lt with hlt | hgt
  · simp [h, hlt, not_lt.mpr hlt.le]
  · simp [h, hgt, not_lt.mpr hgt.le]

lemma winner_style_higher_grpc (rv gv : ℚ) (h : rv ≠ gv) :
    (if gv > rv then "gRPC" else "REST") = (console_compare rv gv false).winner := by
  rw [console_compare_eq_spec]
  unfold spec_compare
  rcases h.lt_or_lt with hlt | hgt
  · simp [h, hlt, not_lt.mpr hlt.le]
  · simp [h, hgt, not_lt.mpr hgt.le]

lemma winner_style_higher_rest (rv gv : ℚ) (h : rv ≠ gv) :
    (if rv > gv then "REST" else "gRPC") = (console_compare rv gv false).winner := by
  rw [console_compare_eq_spec]
  unfold spec_compare
  rcases h.lt_or_lt with hlt | hgt
  · simp [h, hlt, not_lt.mpr hlt.le]
  · simp [h, hgt, not_lt.mpr hgt.le]

/-- Agreement of the three renderings on a pair of metric models: on
each of the five metrics compared in more than one rendering, console
and CSV produce the same winner and the same difference percentage,
and the JSON winner equals the console winner. -/
def RenderingsAgree (rest grpc : MetricResult) : Prop :=
  (console_compare rest.avg_response_time grpc.avg_response_time true
    = csv_write_comparison rest.avg_response_time grpc.avg_response_time true) ∧
  (console_compare rest.avg_payload_size grpc.avg_payload_size true
    = csv_write_comparison rest.avg_payload_size grpc.avg_payload_size true) ∧
  (console_compare rest.success_rate grpc.success_rate false
    = csv_write_comparison rest.success_rate grpc.success_rate false) ∧
  (console_compare rest.throughput grpc.throughput false
    = csv_write_comparison rest.throughput grpc.throughput false) ∧
  (console_compare rest.network_efficiency grpc.network_efficiency false
    = csv_write_comparison rest.network_efficiency grpc.network_efficiency false) ∧
  ((format_json_comparison rest grpc).winner_avg_response_time
    = (console_compare rest.avg_response_time grpc.avg_response_time true).winner) ∧
  ((format_json_comparison rest grpc).winner_avg_payload_size
    = (console_compare rest.avg_payload_size grpc.avg_payload_size true).winner) ∧
  ((format_json_comparison rest grpc).winner_success_rate
    = (console_compare rest.success_rate grpc.success_rate false).winner) ∧
  ((format_json_comparison rest grpc).winner_throughput
    = (console_compare rest.throughput grpc.throughput false).winner) ∧
  ((format_json_comparison rest grpc).winner_network_efficiency
    = (console_compare rest.network_efficiency grpc.network_efficiency false).winner)

/-- C1 (amended): when the two protocols disagree on each of the five
metrics compared in more than one rendering, the console, CSV and JSON
renderings agree on every winner, and console and CSV agree on every
difference percentage. -/
theorem renderings_agree_on_distinct (rest grpc : MetricResult)
    (h1 : rest.avg_response_time ≠ grpc.avg_response_time)
    (h2 : rest.avg_payload_size ≠ grpc.avg_payload_size)
    (h3 : rest.success_rate ≠ grpc.success_rate)
    (h4 : rest.throughput ≠ grpc.throughput)
    (h5 : rest.network_efficiency ≠ grpc.network_efficiency) :
    RenderingsAgree rest grpc := by
  refine ⟨console_eq_csv_of_ne _ _ _ h1, console_eq_csv_of_ne _ _ _ h2,
    console_eq_csv_of_ne _ _ _ h3, console_eq_csv_of_ne _ _ _ h4,
    console_eq_csv_of_ne _ _ _ h5, ?_, ?_, ?_, ?_, ?_⟩
  · exact winner_style_lower_rest _ _ h1
  · exact winner_style_lower_grpc _ _ h2
  · exact winner_style_higher_grpc _ _ h3
  · exact winner_style_higher_rest _ _ h4
  · exact winner_style_higher_rest _ _ h5

/-- C1 counterexample: on the example pair, the JSON rendering reports
an avg-response-time difference of -100 percent while the console
comparison row reports 50 percent, and on the equal success rates the
console winner TIE differs from the CSV winner gRPC. -/
theorem renderings_disagree_counterexample :
    (format_json_comparison exampleRestMetrics exampleGrpcMetrics).avg_response_time_diff_pct
      ≠ (console_compare exampleRestMetrics.avg_response_time
          exampleGrpcMetrics.avg_response_time true).diff_pct ∧
    (console_compare exampleRestMetrics.success_rate
        exampleGrpcMetrics.success_rate false).winner
      ≠ (csv_write_comparison exampleRestMetrics.success_rate
          exampleGrpcMetrics.success_rate false).winner := by
  rw [exampleRestMetrics_eval, exampleGrpcMetrics_eval]
  constructor
  · norm_num [format_json_comparison, console_compare]
  · norm_num [console_compare, csv_write_comparison]
    decide

/-- A two-request REST batch with one timeout, aggregated over one
second: every compared metric differs from the gRPC batch below. -/
def witnessRestMetrics : MetricResult :=
  calculate_metrics
    [{ success := true, response_time := 20, payload_size := 100, user_id := 1 },
     { success := false, response_time := 30000, payload_size := 0, user_id := 2,
       error_message := some "Request timeout", error_type := some "TIMEOUT" }]
    "REST" 1

/-- A two-request fully successful gRPC batch over one second. -/
def witnessGrpcMetrics : MetricResult :=
  calculate_metrics
    [{ success := true, response_time := 10, payload_size := 60, user_id := 1 },
     { success := true, response_time := 10, payload_size := 60, user_id := 2 }]
    "gRPC" 1

/-- Evaluation of the REST witness fixture. -/
lemma witnessRestMetrics_eval :
    witnessRestMetrics =
      { protocol := "REST", total_requests := 2, successful_requests := 1,
        failed_requests := 1, success_rate := 50, avg_response_time := 20,
        min_response_time := 20, max_response_time := 20,
        median_response_time := 20, p95_response_time := 20,
        p99_response_time := 20, stddev_sq_response_time := 0,
        avg_payload_size := 100, total_bytes_transferred := 100,
        throughput := 1, data_transfer_rate := 100,
        network_efficiency := 5, total_duration := 1,
        errors := [("TIMEOUT", 1)] } := by
  rw [witnessRestMetrics, calculate_metrics_of_ne _ _ _ (by decide)]
  simp [MetricResult.mk.injEq, latSuccess, paySuccess, pyMean, pyMin, pyMax,
    pyMedian, pythonSorted, pySampleVariance, categorizeErrors, bumpError,
    errorKey, List.insertionSort, List.orderedInsert]
  norm_num

/-- Evaluation of the gRPC witness fixture. -/
lemma witnessGrpcMetrics_eval :
    witnessGrpcMetrics =
      { protocol := "gRPC", total_requests := 2, successful_requests := 2,
        failed_requests := 0, success_rate := 100, avg_response_time := 10,
        min_response_time := 10, max_response_time := 10,
        median_response_time := 10, p95_response_time := 10,
        p99_response_time := 10, stddev_sq_response_time := 0,
        avg_payload_size := 60, total_bytes_transferred := 120,
        throughput := 2, data_transfer_rate := 120, network_efficiency := 6,
        total_duration := 1, errors := [] } := by
  rw [witnessGrpcMetrics, calculate_metrics_of_ne _ _ _ (by decide)]
  simp [MetricResult.mk.injEq, latSuccess, paySuccess, pyMean, pyMin, pyMax,
    pyMedian, pythonSorted, pySampleVariance, categorizeErrors,
    List.insertionSort, List.orderedInsert]
  norm_num

/-- C1 witness: the amended agreement instantiated on the witness pair,
whose five compared metrics are pairwise distinct. -/
theorem renderings_agree_witness :
    RenderingsAgree witnessRestMetrics witnessGrpcMetrics :=
  renderings_agree_on_distinct witnessRestMetrics witnessGrpcMetrics
    (by rw [witnessRestMetrics_eval, witnessGrpcMetrics_eval]; decide)
    (by rw [witnessRestMetrics_eval, witnessGrpcMetrics_eval]; decide)
    (by rw [witnessRestMetrics_eval, witnessGrpcMetrics_eval]; decide)
    (by rw [witnessRestMetrics_eval, witnessGrpcMetrics_eval]; decide)
    (by rw [witnessRestMetrics_eval, witnessGrpcMetrics_eval]; decide)

lemma pythonSorted_length (xs : List ℚ) :
    (pythonSorted xs).length = xs.length :=
  (List.perm_insertionSort _ xs).length_eq

lemma pythonSorted_perm (xs : List ℚ) : List.Perm (pythonSorted xs) xs :=
  List.perm_insertionSort _ xs

lemma pythonSorted_sorted (xs : List ℚ) :
    (pythonSorted xs).Sorted (· ≤ ·) :=
  List.sorted_insertionSort _ xs

lemma floor_percent (p n : ℕ) : ⌊((p : ℚ) / 100) * n⌋₊ = p * n / 100 := by
  have h : ((p : ℚ) / 100) * n = ((p * n : ℕ) : ℚ) / ((100 : ℕ) : ℚ) := by
    push_cast
    ring
  rw [h, Nat.floor_div_nat, Nat.floor_natCast]

/-- One hundred successful requests with latencies 1 through 100 ms. -/
def fixture100 : List RequestResult :=
  (List.range 100).map (fun i =>
    { success := true, response_time := ((i + 1 : ℕ) : ℚ),
      payload_size := 100, user_id := ((i : ℤ) + 1) })

/-- C3: for every batch with at least one success, the 95th and 99th
percentile fields are the elements of the ascending sorted successful
latencies at the zero-based nearest-rank indices, the floors of 0.95
and 0.99 times the successful count, with no interpolation; on the
fixture of latencies 1 through 100 the 95th percentile is 96. -/
theorem percentiles_nearest_rank :
    (∀ (results : List RequestResult) (protocol : String) (duration : ℚ),
      latSuccess results ≠ [] →
      (calculate_metrics results protocol duration).p95_response_time
        = (pythonSorted (latSuccess results)).getD
            (⌊(0.95 : ℚ) * (latSuccess results).length⌋₊) 0 ∧
      (calculate_metrics results protocol duration).p99_response_time
        = (pythonSorted (latSuccess results)).getD
            (⌊(0.99 : ℚ) * (latSuccess results).length⌋₊) 0) ∧
    (calculate_metrics fixture100 "REST" 1).p95_response_time = 96 := by
  constructor
  · intro results protocol duration h
    have hfil : results.filter (fun r => r.success) ≠ [] := by
      intro h0
      apply h
      simp [latSuccess, h0]
    rw [calculate_metrics_of_ne _ _ _ hfil]
    constructor
    · show (pythonSorted (latSuccess results)).getD
        (95 * (pythonSorted (latSuccess results)).length / 100) 0 = _
      rw [pythonSorted_length]
      congr 1
      rw [show (0.95 : ℚ) = (95 : ℕ) / 100 by norm_num, floor_percent]
    · show (pythonSorted (latSuccess results)).getD
        (99 * (pythonSorted (latSuccess results)).length / 100) 0 = _
      rw [pythonSorted_length]
      congr 1
      rw [show (0.99 : ℚ) = (99 : ℕ) / 100 by norm_num, floor_percent]
  · decide

/-- A three-request batch with latencies 3, 1 and 2 ms. -/
def smallBatch : List RequestResult :=
  [{ success := true, response_time := 3, payload_size := 10, user_id := 1 },
   { success := true, response_time := 1, payload_size := 10, user_id := 2 },
   { success := true, response_time := 2, payload_size := 10, user_id := 3 }]

/-- C3 witness: the nearest-rank equations instantiated on the small
batch with latencies 3, 1, 2. -/
theorem percentiles_nearest_rank_witness :
    (calculate_metrics smallBatch "REST" 1).p95_response_time
      = (pythonSorted (latSuccess smallBatch)).getD
          (⌊(0.95 : ℚ) * (latSuccess smallBatch).length⌋₊) 0 ∧
    (calculate_metrics smallBatch "REST" 1).p99_response_time
      = (pythonSorted (latSuccess smallBatch)).getD
          (⌊(0.99 : ℚ) * (latSuccess smallBatch).length⌋₊) 0 :=
  percentiles_nearest_rank.1 smallBatch "REST" 1 (by decide)

lemma sum_map_sub_sq (xs : List ℚ) (c : ℚ) :
    (xs.map (fun x => (x - c) ^ 2)).sum
      = (xs.map (fun x => x ^ 2)).sum - 2 * c * xs.sum + xs.length * c ^ 2 := by
  induction xs with
  | nil => simp
  | cons a t ih =>
      simp only [List.map_cons, List.sum_cons, ih, List.length_cons]
      push_cast
      ring

lemma pySampleVariance_eq (xs : List ℚ) (h : 2 ≤ xs.length) :
    pySampleVariance xs
      = ((xs.length : ℚ) * (xs.map (fun x => x ^ 2)).sum - xs.sum ^ 2)
          / ((xs.length : ℚ) * ((xs.length : ℚ) - 1)) := by
  have h2 : (2 : ℚ) ≤ (xs.length : ℚ) := by exact_mod_cast h
  have hn : (xs.length : ℚ) ≠ 0 := by linarith
  have hn1 : (xs.length : ℚ) - 1 ≠ 0 := by
    intro h0
    have : (xs.length : ℚ) = 1 := by linarith
    linarith
  unfold pySampleVariance pyMean
  rw [sum_map_sub_sq]
  field_simp
  ring

/-- C5: the stored standard-deviation statistic is the sample variance
with the n-1 divisor (stated in expanded determinant form, which the
sum-of-squared-deviations over n-1 formula equals); it is 0 with fewer
than 2 successful samples; and a batch with no successful record has
every latency and payload field equal to 0, with no error raised. -/
theorem stddev_policy (results : List RequestResult) (protocol : String)
    (duration : ℚ) :
    (2 ≤ (latSuccess results).length →
      (calculate_metrics results protocol duration).stddev_sq_response_time
        = (((latSuccess results).length : ℚ)
            * ((latSuccess results).map (fun x => x ^ 2)).sum
            - (latSuccess results).sum ^ 2)
          / (((latSuccess results).length : ℚ)
            * (((latSuccess results).length : ℚ) - 1))) ∧
    ((latSuccess results).length < 2 →
      (calculate_metrics results protocol duration).stddev_sq_response_time
        = 0) ∧
    (latSuccess results = [] →
      (calculate_metrics results protocol duration).avg_response_time = 0 ∧
      (calculate_metrics results protocol duration).min_response_time = 0 ∧
      (calculate_metrics results protocol duration).max_response_time = 0 ∧
      (calculate_metrics results protocol duration).median_response_time = 0 ∧
      (calculate_metrics results protocol duration).p95_response_time = 0 ∧
      (calculate_metrics results protocol duration).p99_response_time = 0 ∧
      (calculate_metrics results protocol duration).stddev_sq_response_time
        = 0 ∧
      (calculate_metrics results protocol duration).avg_payload_size = 0 ∧
      (calculate_metrics results protocol duration).total_bytes_transferred
        = 0) := by
  by_cases hfil : results.filter (fun r => r.success) = []
  · have hlen : (latSuccess results).length = 0 := by simp [latSuccess, hfil]
    refine ⟨fun h2 => absurd (hlen ▸ h2) (by norm_num), fun _ => ?_, fun _ => ?_⟩
    · rw [calculate_metrics_of_empty _ _ _ hfil]
    · rw [calculate_metrics_of_empty _ _ _ hfil]
      exact ⟨rfl, rfl, rfl, rfl, rfl, rfl, rfl, rfl, rfl⟩
  · refine ⟨fun h2 => ?_, fun hlt => ?_, fun hnil => ?_⟩
    · rw [calculate_metrics_of_ne _ _ _ hfil]
      show (if (latSuccess results).length > 1 then
        pySampleVariance (latSuccess results) else 0) = _
      rw [if_pos (by omega), pySampleVariance_eq _ h2]
    · rw [calculate_metrics_of_ne _ _ _ hfil]
      show (if (latSuccess results).length > 1 then
        pySampleVariance (latSuccess results) else 0) = 0
      rw [if_neg (by omega)]
    · exact absurd hnil (by simp [latSuccess, hfil])

/-- C5 witness: the sample-variance equation instantiated on the small
batch with latencies 3, 1, 2, which has three successful samples. -/
theorem stddev_policy_witness :
    (calculate_metrics smallBatch "REST" 1).stddev_sq_response_time
      = (((latSuccess smallBatch).length : ℚ)
          * ((latSuccess smallBatch).map (fun x => x ^ 2)).sum
          - (latSuccess smallBatch).sum ^ 2)
        / (((latSuccess smallBatch).length : ℚ)
          * (((latSuccess smallBatch).length : ℚ) - 1)) :=
  (stddev_policy smallBatch "REST" 1).1 (by decide)

lemma pyMean_nonneg (xs : List ℚ) (h : ∀ x ∈ xs, 0 ≤ x) : 0 ≤ pyMean xs :=
  div_nonneg (List.sum_nonneg h) (Nat.cast_nonneg _)

/-- C6: throughput is the successful count over the batch duration,
the data transfer rate is the transferred bytes over the duration, and
network efficiency is the mean payload size over the mean latency,
each yielding 0 when its denominator is 0; the guards make every
division well defined, so no division-by-zero error can be raised. -/
theorem derived_rates (results : List RequestResult) (protocol : String)
    (duration : ℚ) (hd : 0 ≤ duration)
    (hlat : ∀ r ∈ results, 0 ≤ r.response_time) :
    (calculate_metrics results protocol duration).throughput
      = (if duration = 0 then 0
         else ((calculate_metrics results protocol duration).successful_requests
            : ℚ) / duration) ∧
    (calculate_metrics results protocol duration).data_transfer_rate
      = (if duration = 0 then 0
         else ((calculate_metrics results protocol
            duration).total_bytes_transferred : ℚ) / duration) ∧
    (calculate_metrics results protocol duration).network_efficiency
      = (if (calculate_metrics results protocol duration).avg_response_time = 0
         then 0
         else (calculate_metrics results protocol duration).avg_payload_size
           / (calculate_metrics results protocol duration).avg_response_time) := by
  by_cases hfil : results.filter (fun r => r.success) = []
  · rw [calculate_metrics_of_empty _ _ _ hfil]
    refine ⟨?_, ?_, ?_⟩ <;> simp
  · rw [calculate_metrics_of_ne _ _ _ hfil]
    have hmean : 0 ≤ pyMean (latSuccess results) := by
      apply pyMean_nonneg
      intro x hx
      simp only [latSuccess, List.mem_map, List.mem_filter] at hx
      obtain ⟨r, ⟨hr, _⟩, rfl⟩ := hx
      exact hlat r hr
    refine ⟨?_, ?_, ?_⟩
    · by_cases hdz : duration = 0
      · simp [hdz]
      · have hdp : 0 < duration := lt_of_le_of_ne hd (Ne.symm hdz)
        simp [hdz, hdp]
    · by_cases hdz : duration = 0
      · simp [hdz]
      · have hdp : 0 < duration := lt_of_le_of_ne hd (Ne.symm hdz)
        simp [hdz, hdp]
    · by_cases hm : pyMean (latSuccess results) = 0
      · simp [hm]
      · have hmp : 0 < pyMean (latSuccess results) :=
          lt_of_le_of_ne hmean (Ne.symm hm)
        simp [hm, hmp]

/-- C6 witness: the rate equations instantiated on the small batch
over one second, whose latencies are all nonnegative. -/
theorem derived_rates_witness :
    (calculate_metrics smallBatch "REST" 1).throughput
      = (if (1 : ℚ) = 0 then 0
         else ((calculate_metrics smallBatch "REST" 1).successful_requests
            : ℚ) / 1) ∧
    (calculate_metrics smallBatch "REST" 1).data_transfer_rate
      = (if (1 : ℚ) = 0 then 0
         else ((calculate_metrics smallBatch "REST"
            1).total_bytes_transferred : ℚ) / 1) ∧
    (calculate_metrics smallBatch "REST" 1).network_efficiency
      = (if (calculate_metrics smallBatch "REST" 1).avg_response_time = 0
         then 0
         else (calculate_metrics smallBatch "REST" 1).avg_payload_size
           / (calculate_metrics smallBatch "REST" 1).avg_response_time) :=
  derived_rates smallBatch "REST" 1 (by decide) (by decide)

/-- The per-record invariant of the data model: a success carries no
error fields; a failure carries a nonempty error kind and a zero
payload. -/
def recordInvariant (r : RequestResult) : Prop :=
  (r.success = true → r.error_message = none ∧ r.error_type = none) ∧
  (r.success = false → ∃ k, r.error_type = some k ∧ k ≠ "") ∧
  (r.success = false → r.payload_size = 0)

lemma append_ne_empty_of_left (s t : String) (h : s ≠ "") : s ++ t ≠ "" := by
  intro h0
  apply h
  have hlen : (s ++ t).length = 0 := by rw [h0]; rfl
  rw [String.length_append] at hlen
  have hs : s.length = 0 := by omega
  cases s with
  | mk data =>
      cases data with
      | nil => rfl
      | cons c cs => simp [String.length] at hs

/-- C7: every record either driver produces satisfies the invariant:
a success has no error fields, a failure has a nonempty error kind,
and a failure has payload 0.  The hypotheses record that Python
exception class names and gRPC status code names are nonempty. -/
theorem drivers_record_invariant (user_id : ℤ) (elapsed : ℚ)
    (ro : RestOutcome) (go : GrpcOutcome)
    (hro : ro.wellFormed) (hgo : go.wellFormed) :
    recordInvariant (fetch_user_rest user_id elapsed ro) ∧
    recordInvariant (fetch_user_grpc user_id elapsed go) := by
  constructor
  · cases ro with
    | response status contentLength =>
        by_cases hs : status = 200
        · subst hs
          simp [fetch_user_rest, recordInvariant]
        · refine ⟨?_, ?_, ?_⟩ <;>
            simp [fetch_user_rest, hs, recordInvariant]
          exact append_ne_empty_of_left "HTTP_" (toString status) (by decide)
    | timeout =>
        refine ⟨?_, ?_, ?_⟩ <;> simp [fetch_user_rest]
    | exn name detail =>
        refine ⟨?_, ?_, ?_⟩ <;> simp [fetch_user_rest]
        exact hro
  · cases go with
    | ok byteSize =>
        simp [fetch_user_grpc, recordInvariant]
    | rpcError codeName details =>
        refine ⟨?_, ?_, ?_⟩ <;> simp [fetch_user_grpc]
        exact hgo
    | exn name detail =>
        refine ⟨?_, ?_, ?_⟩ <;> simp [fetch_user_grpc]
        exact hgo

/-- C7 witness: the invariant instantiated on a successful REST
response and a gRPC RpcError with status code name UNAVAILABLE. -/
theorem drivers_record_invariant_witness :
    recordInvariant (fetch_user_rest 7 12 (.response 200 345)) ∧
    recordInvariant
      (fetch_user_grpc 7 12 (.rpcError "UNAVAILABLE" "connection refused")) :=
  drivers_record_invariant 7 12 (.response 200 345)
    (.rpcError "UNAVAILABLE" "connection refused") trivial
    (show ("UNAVAILABLE" : String) ≠ "" by decide)

/-- A failure outcome fully converted into data: the record marks the
failure, keeps the elapsed time as the latency, and carries an error
kind; nothing is raised to the caller. -/
def failureConverted (r : RequestResult) (elapsed : ℚ) : Prop :=
  r.success = false ∧ r.response_time = elapsed ∧ ∃ k, r.error_type = some k

/-- C8 (amended): both drivers convert every failure outcome into a
failure record carrying the elapsed time and a normalized error kind,
never propagating an exception (the match on outcomes is total).  The
REST driver tags a timeout TIMEOUT with the elapsed time as latency;
the gRPC driver tags an RpcError with its status code name, so a call
that exceeds its deadline is tagged DEADLINE_EXCEEDED, also with the
elapsed time as latency. -/
theorem drivers_convert_failures (user_id : ℤ) (elapsed : ℚ) :
    (∀ status contentLength, status ≠ 200 →
      failureConverted
        (fetch_user_rest user_id elapsed (.response status contentLength))
        elapsed ∧
      (fetch_user_rest user_id elapsed
        (.response status contentLength)).error_type
          = some ("HTTP_" ++ toString status)) ∧
    (failureConverted (fetch_user_rest user_id elapsed .timeout) elapsed ∧
      (fetch_user_rest user_id elapsed .timeout).error_type
        = some "TIMEOUT") ∧
    (∀ name detail,
      failureConverted (fetch_user_rest user_id elapsed (.exn name detail))
        elapsed ∧
      (fetch_user_rest user_id elapsed (.exn name detail)).error_type
        = some name) ∧
    (∀ codeName details,
      failureConverted
        (fetch_user_grpc user_id elapsed (.rpcError codeName details))
        elapsed ∧
      (fetch_user_grpc user_id elapsed
        (.rpcError codeName details)).error_type = some codeName) ∧
    (∀ name detail,
      failureConverted (fetch_user_grpc user_id elapsed (.exn name detail))
        elapsed ∧
      (fetch_user_grpc user_id elapsed (.exn name detail)).error_type
        = some name) := by
  refine ⟨fun status contentLength hs => ?_, ?_, fun name detail => ?_,
    fun codeName details => ?_, fun name detail => ?_⟩ <;>
    simp [fetch_user_rest, fetch_user_grpc, failureConverted, *]

/-- C8 counterexample: a gRPC call that exceeds its 30-second deadline
surfaces as an RpcError whose status code name is DEADLINE_EXCEEDED,
so the driver records that kind, not TIMEOUT, contradicting the claim
that every driver reports a timeout as error kind TIMEOUT. -/
theorem grpc_deadline_not_timeout :
    (fetch_user_grpc 1 30000
      (.rpcError "DEADLINE_EXCEEDED" "Deadline Exceeded")).error_type
        = some "DEADLINE_EXCEEDED" ∧
    (fetch_user_grpc 1 30000
      (.rpcError "DEADLINE_EXCEEDED" "Deadline Exceeded")).error_type
        ≠ some "TIMEOUT" := by
  constructor
  · rfl
  · decide

/-- C8 witness: the conversion facts instantiated on a REST response
with status 404 and on a REST timeout. -/
theorem drivers_convert_failures_witness :
    (failureConverted (fetch_user_rest 5 77 (.response 404 0)) 77 ∧
      (fetch_user_rest 5 77 (.response 404 0)).error_type
        = some ("HTTP_" ++ toString 404)) ∧
    (failureConverted (fetch_user_rest 5 77 .timeout) 77 ∧
      (fetch_user_rest 5 77 .timeout).error_type = some "TIMEOUT") :=
  ⟨(drivers_convert_failures 5 77).1 404 0 (by decide),
    (drivers_convert_failures 5 77).2.1⟩

/-- The parsed view of a range argument: the two dash-separated pieces
read as Python ints, when the argument has exactly that shape.  A
range the spec calls well formed is one this parse accepts. -/
def parseRangePieces (cs : List Char) : Option (ℤ × ℤ) :=
  match splitDash cs with
  | [a, b] =>
      match pyInt a, pyInt b with
      | some mn, some mx => some (mn, mx)
      | _, _ => none
  | _ => none

lemma validate_parse (cs : List Char) :
    validate_user_id_range cs =
      match parseRangePieces cs with
      | none => .error 1
      | some (mn, mx) =>
          if mn < 1 ∨ mx < mn then .error 1 else .ok (mn, mx) := by
  unfold validate_user_id_range parseRangePieces
  rcases hsplit : splitDash cs with _ | ⟨a, rest⟩
  · simp [hsplit]
  · rcases rest with _ | ⟨b, rest2⟩
    · simp [hsplit]
    · rcases rest2 with _ | ⟨c, rest3⟩
      · rcases hpa : pyInt a with _ | mn
        · simp [hsplit, hpa]
        · rcases hpb : pyInt b with _ | mx
          · simp [hsplit, hpa, hpb]
          · simp [hsplit, hpa, hpb]
      · simp [hsplit]

/-- C9: a malformed range argument (one that does not parse as two
dash-separated integers) or one whose bounds violate 1 at most min and
min at most max makes main exit with code 1 whatever the connectivity
probe would say, hence before any load generation; a well-formed range
satisfying both constraints passes validation and reaches the load
phase with those bounds. -/
theorem range_validation_gate (cs : List Char) (conn : Bool) :
    (parseRangePieces cs = none → mainPrelude cs conn = .exitWith 1) ∧
    (∀ mn mx, parseRangePieces cs = some (mn, mx) → (mn < 1 ∨ mx < mn) →
      mainPrelude cs conn = .exitWith 1) ∧
    (∀ mn mx, parseRangePieces cs = some (mn, mx) → 1 ≤ mn → mn ≤ mx →
      validate_user_id_range cs = .ok (mn, mx) ∧
      mainPrelude cs true = .runLoad mn mx) := by
  have hv := validate_parse cs
  refine ⟨fun hnone => ?_, fun mn mx hsome hbad => ?_,
    fun mn mx hsome h1 h2 => ?_⟩
  · simp only [hnone] at hv
    unfold mainPrelude
    rw [hv]
  · simp only [hsome] at hv
    unfold mainPrelude
    rw [hv, if_pos hbad]
  · simp only [hsome] at hv
    have hgood : ¬(mn < 1 ∨ mx < mn) := by omega
    constructor
    · rw [hv, if_neg hgood]
    · unfold mainPrelude
      rw [hv, if_neg hgood]
      rfl

/-- C9 witness: the default range argument 1-10000 parses, satisfies
both constraints, and reaches the load phase with bounds 1 and 10000. -/
theorem range_validation_gate_witness :
    validate_user_id_range ("1-10000".data) = .ok (1, 10000) ∧
    mainPrelude ("1-10000".data) true = .runLoad 1 10000 :=
  (range_validation_gate ("1-10000".data) true).2.2 1 10000
    (by decide) (by decide) (by decide)

lemma foldl_min_le_init (t : List ℚ) (a : ℚ) : t.foldl min a ≤ a := by
  induction t generalizing a with
  | nil => simp
  | cons c t ih =>
      simp only [List.foldl_cons]
      exact le_trans (ih (min a c)) (min_le_left a c)

lemma foldl_min_le_mem (t : List ℚ) (a x : ℚ) (hx : x ∈ t) :
    t.foldl min a ≤ x := by
  induction t generalizing a with
  | nil => cases hx
  | cons c t ih =>
      simp only [List.foldl_cons]
      rcases List.mem_cons.mp hx with rfl | hx2
      · exact le_trans (foldl_min_le_init t (min a x)) (min_le_right a x)
      · exact ih (min a c) hx2

lemma pyMin_le (xs : List ℚ) (x : ℚ) (hx : x ∈ xs) : pyMin xs ≤ x := by
  cases xs with
  | nil => cases hx
  | cons h t =>
      unfold pyMin
      rcases List.mem_cons.mp hx with rfl | hx2
      · exact foldl_min_le_init t x
      · exact foldl_min_le_mem t h x hx2

lemma init_le_foldl_max (t : List ℚ) (a : ℚ) : a ≤ t.foldl max a := by
  induction t generalizing a with
  | nil => simp
  | cons c t ih =>
      simp only [List.foldl_cons]
      exact le_trans (le_max_left a c) (ih (max a c))

lemma mem_le_foldl_max (t : List ℚ) (a x : ℚ) (hx : x ∈ t) :
    x ≤ t.foldl max a := by
  induction t generalizing a with
  | nil => cases hx
  | cons c t ih =>
      simp only [List.foldl_cons]
      rcases List.mem_cons.mp hx with rfl | hx2
      · exact le_trans (le_max_right a x) (init_le_foldl_max t (max a x))
      · exact ih (max a c) hx2

lemma le_pyMax (xs : List ℚ) (x : ℚ) (hx : x ∈ xs) : x ≤ pyMax xs := by
  cases xs with
  | nil => cases hx
  | cons h t =>
      unfold pyMax
      rcases List.mem_cons.mp hx with rfl | hx2
      · exact init_le_foldl_max t x
      · exact mem_le_foldl_max t h x hx2

lemma sorted_getD_mono (s : List ℚ) (hs : s.Sorted (· ≤ ·)) (i j : ℕ)
    (hij : i ≤ j) (hj : j < s.length) : s.getD i 0 ≤ s.getD j 0 := by
  rw [List.getD_eq_get s 0 (lt_of_le_of_lt hij hj), List.getD_eq_get s 0 hj]
  exact hs.rel_get_of_le (Fin.mk_le_mk.mpr hij)

lemma getD_mem (s : List ℚ) (i : ℕ) (hi : i < s.length) :
    s.getD i 0 ∈ s := by
  rw [List.getD_eq_get s 0 hi]
  exact List.get_mem s i hi

/-- C10: on every batch with at least one success, the latency order
statistics are monotonically ordered (min at most median at most p95
at most p99 at most max) and the two percentile fields are elements of
the successful-latency multiset, so the nearest-rank indexing never
leaves the list and never interpolates. -/
theorem latency_stats_ordered (results : List RequestResult)
    (protocol : String) (duration : ℚ) (h : latSuccess results ≠ []) :
    (calculate_metrics results protocol duration).min_response_time
      ≤ (calculate_metrics results protocol duration).median_response_time ∧
    (calculate_metrics results protocol duration).median_response_time
      ≤ (calculate_metrics results protocol duration).p95_response_time ∧
    (calculate_metrics results protocol duration).p95_response_time
      ≤ (calculate_metrics results protocol duration).p99_response_time ∧
    (calculate_metrics results protocol duration).p99_response_time
      ≤ (calculate_metrics results protocol duration).max_response_time ∧
    (calculate_metrics results protocol duration).p95_response_time
      ∈ latSuccess results ∧
    (calculate_metrics results protocol duration).p99_response_time
      ∈ latSuccess results := by
  have hfil : results.filter (fun r => r.success) ≠ [] := by
    intro h0
    apply h
    simp [latSuccess, h0]
  rw [calculate_metrics_of_ne _ _ _ hfil]
  set xs := latSuccess results with hxs
  set s := pythonSorted xs with hsdef
  have hperm : List.Perm s xs := pythonSorted_perm xs
  have hsort : s.Sorted (· ≤ ·) := pythonSorted_sorted xs
  have hlen : s.length = xs.length := pythonSorted_length xs
  have hpos : 0 < s.length := by
    rw [hlen]
    exact List.length_pos.mpr h
  have hmem_of : ∀ i, i < s.length → s.getD i 0 ∈ xs := fun i hi =>
    hperm.mem_iff.mp (getD_mem s i hi)
  have h95lt : 95 * s.length / 100 < s.length := by omega
  have h99lt : 99 * s.length / 100 < s.length := by omega
  have h9599 : 95 * s.length / 100 ≤ 99 * s.length / 100 := by omega
  have hmidlt : s.length / 2 < s.length := by omega
  refine ⟨?_, ?_, ?_, ?_, ?_, ?_⟩
  · show pyMin xs ≤ pyMedian xs
    unfold pyMedian
    rw [← hsdef]
    by_cases hpar : s.length % 2 = 1
    · rw [if_pos hpar]
      exact pyMin_le xs _ (hmem_of _ hmidlt)
    · rw [if_neg hpar]
      have ha := pyMin_le xs _ (hmem_of _ (lt_of_le_of_lt
        (Nat.sub_le (s.length / 2) 1) hmidlt))
      have hb := pyMin_le xs _ (hmem_of _ hmidlt)
      linarith
  · show pyMedian xs ≤ s.getD (95 * s.length / 100) 0
    unfold pyMedian
    rw [← hsdef]
    have hmid95 : s.length / 2 ≤ 95 * s.length / 100 := by omega
    have hmono := sorted_getD_mono s hsort (s.length / 2)
      (95 * s.length / 100) hmid95 h95lt
    by_cases hpar : s.length % 2 = 1
    · rw [if_pos hpar]
      exact hmono
    · rw [if_neg hpar]
      have hab := sorted_getD_mono s hsort (s.length / 2 - 1) (s.length / 2)
        (Nat.sub_le _ 1) hmidlt
      linarith
  · exact sorted_getD_mono s hsort _ _ h9599 h99lt
  · show s.getD (99 * s.length / 100) 0 ≤ pyMax xs
    exact le_pyMax xs _ (hmem_of _ h99lt)
  · exact hmem_of _ h95lt
  · exact hmem_of _ h99lt

/-- C10 witness: the order statistics of the small batch with
latencies 3, 1, 2 are ordered and its percentiles are elements. -/
theorem latency_stats_ordered_witness :
    (calculate_metrics smallBatch "REST" 1).min_response_time
      ≤ (calculate_metrics smallBatch "REST" 1).median_response_time ∧
    (calculate_metrics smallBatch "REST" 1).median_response_time
      ≤ (calculate_metrics smallBatch "REST" 1).p95_response_time ∧
    (calculate_metrics smallBatch "REST" 1).p95_response_time
      ≤ (calculate_metrics smallBatch "REST" 1).p99_response_time ∧
    (calculate_metrics smallBatch "REST" 1).p99_response_time
      ≤ (calculate_metrics smallBatch "REST" 1).max_response_time ∧
    (calculate_metrics smallBatch "REST" 1).p95_response_time
      ∈ latSuccess smallBatch ∧
    (calculate_metrics smallBatch "REST" 1).p99_response_time
      ∈ latSuccess smallBatch :=
  latency_stats_ordered smallBatch "REST" 1 (by decide)

end PerfTest

